import Mathlib

/-!
Verification of the subscription lifecycle engine of a role-subscription
bot.  The definitions below are a shallow embedding of the JavaScript
source: timestamps are integers (milliseconds since epoch, as returned by
`Date.getTime()`), the Mongoose document collection is a `List` of
records, and Mongoose queries (`find` with `$lte`/`$gte`/`$ne`) become
list filters.  A fallible `save` models Mongoose's validation-on-save of
the schema constraints (`months` has `min: 1, max: 10` in the schema).
-/

namespace Virelia

/-- A subscription document, following `subscriptionSchema` in
`src/utils/timeUtils.js` (model part): `discordId`, `roleId`, `months`
(schema bounds `min: 1, max: 10`), `startAt`, `expiresAt`, and the two
notification flags that default to `false`. -/
structure Subscription where
  discordId : String
  roleId : String
  months : Int
  startAt : Int
  expiresAt : Int
  notified1Day : Bool
  notified30Minutes : Bool
deriving Repr, DecidableEq

/-- Schema validation for a subscription document: the `months` field is
declared with `min: 1` and `max: 10`. -/
def validateSubscription (s : Subscription) : Bool :=
  decide (1 ≤ s.months) && decide (s.months ≤ 10)

/-- Mongoose `document.save()`: runs the schema validators before
persisting; a document violating `min`/`max` on `months` is rejected
with a validation error. -/
def save (s : Subscription) : Except String Subscription :=
  if validateSubscription s then Except.ok s else Except.error "ValidationError"

/-- `addMonths` from `src/utils/timeUtils.js`: each month is 30 days,
`new Date(date.getTime() + daysToAdd * 24 * 60 * 60 * 1000)`. -/
def addMonths (date : Int) (months : Int) : Int :=
  date + (months * 30) * (24 * 60 * 60 * 1000)

/-- The in-place field updates of `subscriptionSchema.methods.extend`,
before `this.save()`: adds `additionalMonths * 30` days to the current
`expiresAt`, increments the cumulative `months`, and resets both
notification flags. -/
def Subscription.extendPure (s : Subscription) (additionalMonths : Int) :
    Subscription :=
  { s with
    expiresAt := s.expiresAt + (additionalMonths * 30) * (24 * 60 * 60 * 1000)
    months := s.months + additionalMonths
    notified1Day := false
    notified30Minutes := false }

/-- `subscriptionSchema.methods.extend`: performs the field updates and
returns `this.save()`. -/
def Subscription.extend (s : Subscription) (additionalMonths : Int) :
    Except String Subscription :=
  save (s.extendPure additionalMonths)

/-- `Subscription.findOne({ discordId: userId })`. -/
def findOne (store : List Subscription) (userId : String) : Option Subscription :=
  store.find? (fun s => s.discordId == userId)

/-- `subscriptionSchema.statics.findExpired`:
`find({ expiresAt: { $lte: new Date() } })`. -/
def findExpired (store : List Subscription) (now : Int) : List Subscription :=
  store.filter (fun s => decide (s.expiresAt ≤ now))

/-- `subscriptionSchema.statics.findActive`:
`find({ expiresAt: { $gt: new Date() } })`. -/
def findActive (store : List Subscription) (now : Int) : List Subscription :=
  store.filter (fun s => decide (now < s.expiresAt))

/-- `SubscriptionService.getSubscriptionsExpiringIn1Day`: selects records
with `expiresAt` between `now + 24h` (`$gte`) and `now + 24h + 10min`
(`$lte`) whose `notified1Day` is not `true` (`$ne: true`). -/
def getSubscriptionsExpiringIn1Day (store : List Subscription) (now : Int) :
    List Subscription :=
  let oneDayFromNow := now + 24 * 60 * 60 * 1000
  let oneDayTenMinutesFromNow := now + (24 * 60 + 10) * 60 * 1000
  store.filter (fun s =>
    decide (oneDayFromNow ≤ s.expiresAt) &&
    decide (s.expiresAt ≤ oneDayTenMinutesFromNow) &&
    (s.notified1Day != true))

/-- `SubscriptionService.getSubscriptionsExpiringIn30Minutes`: selects
records with `expiresAt` between `now + 30min` and `now + 35min` whose
`notified30Minutes` is not `true`. -/
def getSubscriptionsExpiringIn30Minutes (store : List Subscription) (now : Int) :
    List Subscription :=
  let thirtyMinutesFromNow := now + 30 * 60 * 1000
  let thirtyFiveMinutesFromNow := now + 35 * 60 * 1000
  store.filter (fun s =>
    decide (thirtyMinutesFromNow ≤ s.expiresAt) &&
    decide (s.expiresAt ≤ thirtyFiveMinutesFromNow) &&
    (s.notified30Minutes != true))

/-- The record/flags part of the result of
`SubscriptionService.addSubscription`: the saved record, `isNew`, and
(on the extension path) `oldExpiry`. -/
structure AddResult where
  subscription : Subscription
  isNew : Bool
  oldExpiry : Option Int
deriving Repr, DecidableEq

/-- The document built by the creation path of
`SubscriptionService.addSubscription`: `startAt = now` (the `new Date()`
of the service), `expiresAt = addMonths(startAt, months)`, and the two
notification flags at their schema default `false`. -/
def newSubscription (userId roleId : String) (months now : Int) : Subscription :=
  { discordId := userId, roleId := roleId, months := months,
    startAt := now, expiresAt := addMonths now months,
    notified1Day := false, notified30Minutes := false }

/-- `SubscriptionService.addSubscription(userId, months, roleId)`.
If a record exists it is extended via `extend` (capturing `oldExpiry`
first); otherwise a new record is created with `startAt = now`,
`expiresAt = addMonths(startAt, months)` and default-false flags, then
saved.  Errors from `save` propagate (`throw error`).  The updated store
is returned alongside the result. -/
def addSubscription (store : List Subscription) (now : Int) (userId : String)
    (months : Int) (roleId : String) :
    Except String (AddResult × List Subscription) :=
  match findOne store userId with
  | some existingSubscription =>
    let oldExpiry := existingSubscription.expiresAt
    match existingSubscription.extend months with
    | Except.ok updated =>
      Except.ok
        ({ subscription := updated, isNew := false, oldExpiry := some oldExpiry },
         store.map (fun s => if s.discordId == userId then updated else s))
    | Except.error e => Except.error e
  | none =>
    match save (newSubscription userId roleId months now) with
    | Except.ok saved => Except.ok
        ({ subscription := saved, isNew := true, oldExpiry := none },
         store ++ [saved])
    | Except.error e => Except.error e

/-- Per-record external environment for the expiry sweep.  `member` is
the result of `guild.members.fetch(id).catch(() => null)`: `none` when
the member is absent or the fetch failed, `some hasRole` otherwise.
`revokeSucceeds` tells whether `member.roles.remove(roleId)` returns
normally (`true`) or throws (`false`). -/
structure MemberEnv where
  member : Option Bool
  revokeSucceeds : Bool
deriving Repr, DecidableEq

/-- Whether the per-record body of `processExpiredSubscriptions` reaches
the `findByIdAndDelete` line without throwing: the role-removal step is
only attempted when the member exists and holds the role, and only a
throwing removal aborts the record (caught by the per-record `catch`,
which skips the deletion). -/
def roleStepOk (env : String → MemberEnv) (s : Subscription) : Bool :=
  match (env s.discordId).member with
  | some hasRole => !hasRole || (env s.discordId).revokeSucceeds
  | none => true

/-- The `for (const subscription of expiredSubscriptions)` loop of
`processExpiredSubscriptions`: each record whose role step does not
throw is deleted from the store (`findByIdAndDelete`) and pushed onto
`processedUsers`; a record whose role step throws is caught, logged and
left in the store. -/
def processLoop (env : String → MemberEnv) :
    List Subscription → List Subscription → List Subscription × List String
  | store, [] => (store, [])
  | store, s :: rest =>
    if roleStepOk env s then
      let next := processLoop env (store.filter (fun r => r.discordId != s.discordId)) rest
      (next.1, s.discordId :: next.2)
    else
      processLoop env store rest

/-- `SubscriptionService.processExpiredSubscriptions`: fetches the
expired records (`expiresAt <= now`) and runs the per-record loop,
returning the remaining store and the processed user ids. -/
def processExpiredSubscriptions (store : List Subscription) (now : Int)
    (env : String → MemberEnv) : List Subscription × List String :=
  processLoop env store (findExpired store now)

/-- One run of the 1-day part of `processExpirationWarnings` in which
every send succeeds and every flag write persists: each selected record
gets `notified1Day` set to `true` via `findByIdAndUpdate`; the second
component lists the users warned in this run. -/
def run1DaySweep (store : List Subscription) (now : Int) :
    List Subscription × List String :=
  let warned := (getSubscriptionsExpiringIn1Day store now).map (fun s => s.discordId)
  (store.map (fun s =>
      if warned.contains s.discordId then { s with notified1Day := true } else s),
   warned)

/-- The remaining-time record produced by `getTimeRemaining` in
`src/utils/timeUtils.js`. -/
structure TimeRemaining where
  days : Int
  hours : Int
  minutes : Int
  expired : Bool
deriving Repr, DecidableEq

/-- `getTimeRemaining(expiresAt)` with the call to `new Date()` made
explicit: `timeDiff = expiresAt - now`; if `timeDiff <= 0` the result is
expired with zeroed components, otherwise days/hours/minutes are the
floor divisions of the source. -/
def getTimeRemaining (expiresAt : Int) (now : Int) : TimeRemaining :=
  let timeDiff := expiresAt - now
  if timeDiff ≤ 0 then
    { days := 0, hours := 0, minutes := 0, expired := true }
  else
    { days := timeDiff / (1000 * 60 * 60 * 24)
      hours := (timeDiff % (1000 * 60 * 60 * 24)) / (1000 * 60 * 60)
      minutes := (timeDiff % (1000 * 60 * 60)) / (1000 * 60)
      expired := false }

/-- The `isActive` virtual of the schema: `this.expiresAt > new Date()`. -/
def isActive (s : Subscription) (now : Int) : Bool :=
  decide (now < s.expiresAt)

/-- The warning-window predicate exactly as the spec states it
(claim wording): `now` lies in the half-open interval
`[expiresAt - 24h, expiresAt - 24h + 10min)`.  Kept separate from the
source-derived selection so the two can be compared. -/
def specOneDayWindow (now : Int) (expiresAt : Int) : Bool :=
  decide (expiresAt - 24 * 60 * 60 * 1000 ≤ now) &&
  decide (now < expiresAt - 24 * 60 * 60 * 1000 + 10 * 60 * 1000)

/-! ## Helper lemmas -/

/-- The expired verdict of `getTimeRemaining` holds exactly when
`expiresAt <= now`. -/
theorem getTimeRemaining_expired_iff (e now : Int) :
    (getTimeRemaining e now).expired = true ↔ e ≤ now := by
  unfold getTimeRemaining
  by_cases h : e - now ≤ 0
  · simp only [h, if_pos]
    simpa using by omega
  · simp only [h, if_neg, not_false_iff]
    simpa using by omega

/-- Concrete record builder used by the concrete test vectors below. -/
def subAt (e : Int) : Subscription :=
  { discordId := "U", roleId := "R", months := 1, startAt := 0, expiresAt := e,
    notified1Day := false, notified30Minutes := false }

/-! ## Claims -/

/-- Claim C9: the expiry sweep at time `now` selects exactly the records
with `expiresAt <= now`; in particular, of three records expiring at
`now - 1s`, `now`, and `now + 1s`, it selects the first two (boundary
included) and not the third. -/
theorem C9_expiry_sweep_selects_lte :
    (∀ (store : List Subscription) (now : Int) (s : Subscription),
      s ∈ findExpired store now ↔ s ∈ store ∧ s.expiresAt ≤ now) ∧
    findExpired [subAt (1000000 - 1000), subAt 1000000, subAt (1000000 + 1000)]
        1000000 = [subAt (1000000 - 1000), subAt 1000000] := by
  constructor
  · intro store now s
    simp [findExpired, List.mem_filter]
  · decide

/-- Claim C10: the expired verdict of the time-remaining computation
used by the status command is the exact negation of the model's
`isActive` virtual, and both agree with the active-record and
expired-record queries at every instant, including `expiresAt = now`. -/
theorem C10_status_active_expired_agree :
    ∀ (s : Subscription) (now : Int) (store : List Subscription),
      ((getTimeRemaining s.expiresAt now).expired = !(isActive s now)) ∧
      (s ∈ findActive store now ↔ s ∈ store ∧ isActive s now = true) ∧
      (s ∈ findExpired store now ↔
        s ∈ store ∧ (getTimeRemaining s.expiresAt now).expired = true) := by
  intro s now store
  refine ⟨?_, ?_, ?_⟩
  · by_cases h : s.expiresAt ≤ now
    · rw [(getTimeRemaining_expired_iff s.expiresAt now).mpr h]
      simp [isActive]
      omega
    · have hb : (getTimeRemaining s.expiresAt now).expired = false := by
        rcases hx : (getTimeRemaining s.expiresAt now).expired with _ | _
        · rfl
        · exact absurd ((getTimeRemaining_expired_iff s.expiresAt now).mp hx) h
      rw [hb]
      simp [isActive]
      omega
  · simp [findActive, List.mem_filter, isActive]
  · simp [findExpired, List.mem_filter, getTimeRemaining_expired_iff]

/-- Claim C4: at sweep time `now`, a record expiring at `now + 24h` is
eligible for the 1-day warning, one expiring at `now + 24h + 11min` is
not eligible, and one expiring at `now + 24h - 1min` is not eligible
(all with `notified1Day = false`). -/
theorem C4_window_boundaries :
    subAt (24 * 60 * 60 * 1000) ∈
      getSubscriptionsExpiringIn1Day
        [subAt (24 * 60 * 60 * 1000),
         subAt (24 * 60 * 60 * 1000 + 11 * 60 * 1000),
         subAt (24 * 60 * 60 * 1000 - 60 * 1000)] 0 ∧
    subAt (24 * 60 * 60 * 1000 + 11 * 60 * 1000) ∉
      getSubscriptionsExpiringIn1Day
        [subAt (24 * 60 * 60 * 1000),
         subAt (24 * 60 * 60 * 1000 + 11 * 60 * 1000),
         subAt (24 * 60 * 60 * 1000 - 60 * 1000)] 0 ∧
    subAt (24 * 60 * 60 * 1000 - 60 * 1000) ∉
      getSubscriptionsExpiringIn1Day
        [subAt (24 * 60 * 60 * 1000),
         subAt (24 * 60 * 60 * 1000 + 11 * 60 * 1000),
         subAt (24 * 60 * 60 * 1000 - 60 * 1000)] 0 := by
  decide

/-- Claim C2 counterexample: a record expiring 23h55m from `now = 0`
satisfies the spec's stated window — `now` lies in
`[expiresAt - 24h, expiresAt - 24h + 10min)` — and has
`notified1Day = false`, yet the source query does not select it: the
code requires `expiresAt >= now + 24h`. -/
theorem C2_counterexample :
    specOneDayWindow 0 (subAt (24 * 60 * 60 * 1000 - 5 * 60 * 1000)).expiresAt
        = true ∧
    (subAt (24 * 60 * 60 * 1000 - 5 * 60 * 1000)).notified1Day = false ∧
    getSubscriptionsExpiringIn1Day
        [subAt (24 * 60 * 60 * 1000 - 5 * 60 * 1000)] 0 = [] := by
  decide

/-- Claim C2 (amended): a record is selected by the 1-day warning sweep
iff `now` lies in the closed interval
`[expiresAt - 24h - 10min, expiresAt - 24h]` (equivalently `expiresAt`
lies in `[now + 24h, now + 24h + 10min]`, both ends inclusive) and
`notified1Day` is false. -/
theorem C2_one_day_selection_iff :
    ∀ (store : List Subscription) (now : Int) (s : Subscription),
      s ∈ getSubscriptionsExpiringIn1Day store now ↔
        s ∈ store ∧
        (s.expiresAt - 24 * 60 * 60 * 1000 - 10 * 60 * 1000 ≤ now ∧
          now ≤ s.expiresAt - 24 * 60 * 60 * 1000) ∧
        s.notified1Day = false := by
  intro store now s
  simp only [getSubscriptionsExpiringIn1Day, List.mem_filter, Bool.and_eq_true,
    decide_eq_true_eq, bne_iff_ne, ne_eq, Bool.not_eq_true]
  constructor
  · rintro ⟨hmem, ⟨h1, h2⟩, h3⟩
    exact ⟨hmem, ⟨by omega, by omega⟩, h3⟩
  · rintro ⟨hmem, ⟨h1, h2⟩, h3⟩
    exact ⟨hmem, ⟨by omega, by omega⟩, h3⟩

/-- The processed-users list of the expiry loop is the expired records
whose role step does not throw, in order. -/
theorem processLoop_snd (env : String → MemberEnv) (l : List Subscription) :
    ∀ store : List Subscription,
      (processLoop env store l).2 =
        (l.filter (roleStepOk env)).map (fun s => s.discordId) := by
  induction l with
  | nil => intro store; rfl
  | cons s rest ih =>
    intro store
    by_cases h : roleStepOk env s
    · simp [processLoop, h, ih]
    · simp [processLoop, h, ih]

/-- Claim C1 counterexample: a single expired record whose
role-revocation step throws is selected by the sweep, yet the run
deletes nothing — the record is still in the store and the
processed-users list is empty.  Deletion is conditional on the role
step not throwing. -/
theorem C1_counterexample :
    subAt 100 ∈ findExpired [subAt 100] 100 ∧
    (processExpiredSubscriptions [subAt 100] 100
        (fun _ => { member := some true, revokeSucceeds := false })).2 = [] ∧
    (processExpiredSubscriptions [subAt 100] 100
        (fun _ => { member := some true, revokeSucceeds := false })).1
      = [subAt 100] := by
  decide

/-- Claim C1 (amended): in each run of the expiry sweep, the set of
records deleted (and reported processed) is exactly the selected
records (`expiresAt <= now`) whose per-record role step does not throw;
a selected record whose role revocation throws is caught by the
per-record handler, skipped, and left in the store for a later run. -/
theorem C1_deletion_conditional_on_role_step :
    ∀ (store : List Subscription) (now : Int) (env : String → MemberEnv),
      (processExpiredSubscriptions store now env).2 =
        ((findExpired store now).filter (roleStepOk env)).map
          (fun s => s.discordId) := by
  intro store now env
  exact processLoop_snd env (findExpired store now) store

/-- Claim C3 counterexample: a valid record with `months = 8` extended
by 5 months does not persist: the schema validator (`months` at most
10) runs on save and rejects the cumulative value 13, so `extend`
(and thus the add-or-extend service call) fails with a validation
error. -/
theorem C3_counterexample :
    validateSubscription { subAt 1000000 with months := 8 } = true ∧
    ({ subAt 1000000 with months := 8 } : Subscription).extend 5
        = Except.error "ValidationError" ∧
    addSubscription [{ subAt 1000000 with months := 8 }] 0 "U" 5 "R"
        = Except.error "ValidationError" :=
  ⟨by decide, rfl, rfl⟩

/-- Claim C3 (amended): an extension persists iff the cumulative months
total stays within the schema range `[1, 10]`; the bound applies to the
stored cumulative field on save, so the cumulative total is capped at
10 rather than unbounded. -/
theorem C3_extension_bounded_by_schema :
    ∀ (s : Subscription) (a : Int),
      (∃ s2, s.extend a = Except.ok s2) ↔
        1 ≤ s.months + a ∧ s.months + a ≤ 10 := by
  intro s a
  unfold Subscription.extend save validateSubscription Subscription.extendPure
  by_cases h1 : 1 ≤ s.months + a
  · by_cases h2 : s.months + a ≤ 10
    · simp [h1, h2]
    · simp [h1, h2]
  · simp [h1]

/-- Claim C5: every successful extension resets both notification flags
to false, whatever their previous values. -/
theorem C5_flags_reset_on_extension :
    ∀ (s s2 : Subscription) (a : Int),
      s.extend a = Except.ok s2 →
      s2.notified1Day = false ∧ s2.notified30Minutes = false := by
  intro s s2 a h
  unfold Subscription.extend save at h
  by_cases hv : validateSubscription (s.extendPure a)
  · rw [if_pos hv] at h
    cases h
    exact ⟨rfl, rfl⟩
  · rw [if_neg hv] at h
    cases h

/-- A record with both warning flags already set, used to exercise the
flag reset on extension. -/
def bothFlagsSet : Subscription :=
  { subAt 1000 with
    months := 3
    notified1Day := true
    notified30Minutes := true }

/-- The record produced by extending `bothFlagsSet` by one month. -/
def bothFlagsSetExtended : Subscription :=
  { subAt 1000 with
    months := 4
    expiresAt := 1000 + 1 * 30 * (24 * 60 * 60 * 1000) }

/-- Claim C5 witness: a record with both flags true and `months = 3`,
extended by 1 month, ends with both flags false. -/
theorem C5_flags_reset_witness :
    bothFlagsSetExtended.notified1Day = false ∧
    bothFlagsSetExtended.notified30Minutes = false :=
  C5_flags_reset_on_extension bothFlagsSet bothFlagsSetExtended 1 rfl

/-- Membership in the 1-day warning selection, unfolded. -/
theorem mem_oneDaySelection (store : List Subscription) (now : Int)
    (s : Subscription) :
    s ∈ getSubscriptionsExpiringIn1Day store now ↔
      s ∈ store ∧
      (now + 24 * 60 * 60 * 1000 ≤ s.expiresAt ∧
        s.expiresAt ≤ now + (24 * 60 + 10) * 60 * 1000) ∧
      s.notified1Day = false := by
  simp [getSubscriptionsExpiringIn1Day, List.mem_filter, and_assoc]

/-- Claim C6: extending an existing record (`months = 3`) by 2 months
through the add-or-extend service adds 60 days to the current
`expiresAt`, yields cumulative `months = 5`, reports `isNew = false`,
and reports the previous expiry. -/
theorem C6_extension_additivity :
    ∀ (store : List Subscription) (now : Int) (rid : String) (s : Subscription),
      findOne store "U1" = some s → s.months = 3 →
      addSubscription store now "U1" 2 rid =
        Except.ok
          ({ subscription := s.extendPure 2, isNew := false,
             oldExpiry := some s.expiresAt },
           store.map (fun r => if r.discordId == "U1" then s.extendPure 2 else r)) ∧
      (s.extendPure 2).months = 5 ∧
      (s.extendPure 2).expiresAt = s.expiresAt + 60 * (24 * 60 * 60 * 1000) := by
  intro store now rid s hfind hm
  have hv : validateSubscription (s.extendPure 2) = true := by
    simp only [validateSubscription, Subscription.extendPure, hm]
    decide
  refine ⟨?_, ?_, ?_⟩
  · unfold addSubscription
    rw [hfind]
    unfold Subscription.extend save
    dsimp only
    rw [if_pos hv]
  · simp [Subscription.extendPure, hm]
  · simp only [Subscription.extendPure]
    ring

/-- An existing record for user `U1` with three months granted. -/
def existingU1 : Subscription :=
  { subAt 5000 with
    discordId := "U1"
    months := 3 }

/-- Claim C6 witness: the extension scenario run on a one-record store. -/
theorem C6_extension_additivity_witness :
    addSubscription [existingU1] 0 "U1" 2 "R" =
      Except.ok
        ({ subscription := existingU1.extendPure 2, isNew := false,
           oldExpiry := some existingU1.expiresAt },
         [existingU1].map
           (fun r => if r.discordId == "U1" then existingU1.extendPure 2 else r)) ∧
    (existingU1.extendPure 2).months = 5 ∧
    (existingU1.extendPure 2).expiresAt
        = existingU1.expiresAt + 60 * (24 * 60 * 60 * 1000) :=
  C6_extension_additivity [existingU1] 0 "R" existingU1 rfl rfl

/-- Claim C8: add-or-extend for a subscriber with no record creates one
with `startAt = now`, `expiresAt = startAt + 30 days per month`, the
given cumulative `months`, both flags false, and reports `isNew = true`
(for `months` within the schema range, which the command surface
restricts to `[1, 10]`). -/
theorem C8_creation :
    ∀ (store : List Subscription) (now : Int) (uid rid : String) (months : Int),
      findOne store uid = none → 1 ≤ months → months ≤ 10 →
      addSubscription store now uid months rid =
        Except.ok
          ({ subscription := newSubscription uid rid months now, isNew := true,
             oldExpiry := none },
           store ++ [newSubscription uid rid months now]) ∧
      (newSubscription uid rid months now).startAt = now ∧
      (newSubscription uid rid months now).expiresAt
          = now + months * (30 * (24 * 60 * 60 * 1000)) ∧
      (newSubscription uid rid months now).notified1Day = false ∧
      (newSubscription uid rid months now).notified30Minutes = false := by
  intro store now uid rid months hfind h1 h2
  have hv : validateSubscription (newSubscription uid rid months now) = true := by
    simp [validateSubscription, newSubscription, h1, h2]
  refine ⟨?_, rfl, ?_, rfl, rfl⟩
  · unfold addSubscription
    rw [hfind]
    unfold save
    rw [if_pos hv]
  · simp only [newSubscription, addMonths]
    ring

/-- Claim C8 witness: creation on the empty store with three months
gives `expiresAt = startAt + 90 days`. -/
theorem C8_creation_witness :
    addSubscription [] 0 "U1" 3 "R" =
      Except.ok
        ({ subscription := newSubscription "U1" "R" 3 0, isNew := true,
           oldExpiry := none },
         [] ++ [newSubscription "U1" "R" 3 0]) ∧
    (newSubscription "U1" "R" 3 0).startAt = 0 ∧
    (newSubscription "U1" "R" 3 0).expiresAt = 0 + 3 * (30 * (24 * 60 * 60 * 1000)) ∧
    (newSubscription "U1" "R" 3 0).notified1Day = false ∧
    (newSubscription "U1" "R" 3 0).notified30Minutes = false :=
  C8_creation [] 0 "U1" "R" 3 rfl (by norm_num) (by norm_num)

/-- Claim C7: a warning sweep whose flag writes persist never warns the
same user twice for the same expiry value: any user warned in the first
run is excluded from the selection of a second run over the updated
store, at any later sweep time. -/
theorem C7_no_second_warning :
    ∀ (store : List Subscription) (now1 now2 : Int) (uid : String),
      uid ∈ (run1DaySweep store now1).2 →
      uid ∉ (run1DaySweep (run1DaySweep store now1).1 now2).2 := by
  intro store now1 now2 uid h1 h2
  simp only [run1DaySweep] at h1 h2
  rw [List.mem_map] at h2
  obtain ⟨r, hr, hruid⟩ := h2
  rw [mem_oneDaySelection] at hr
  obtain ⟨hrstore, _, hrflag⟩ := hr
  rw [List.mem_map] at hrstore
  obtain ⟨s0, hs0, hfs0⟩ := hrstore
  by_cases hc :
      ((getSubscriptionsExpiringIn1Day store now1).map
        (fun s => s.discordId)).contains s0.discordId
  · rw [if_pos hc] at hfs0
    rw [← hfs0] at hrflag
    simp at hrflag
  · rw [if_neg hc] at hfs0
    exact hc (List.elem_iff.mpr (by rw [hfs0, hruid]; exact h1))

/-- Claim C7 witness: a record expiring exactly 24h out is warned by the
first sweep and skipped by a second sweep at the same instant. -/
theorem C7_no_second_warning_witness :
    "U" ∈ (run1DaySweep [subAt (24 * 60 * 60 * 1000)] 0).2 ∧
    "U" ∉ (run1DaySweep (run1DaySweep [subAt (24 * 60 * 60 * 1000)] 0).1 0).2 :=
  ⟨by decide,
   C7_no_second_warning [subAt (24 * 60 * 60 * 1000)] 0 0 "U" (by decide)⟩

end Virelia
